import Mathlib

/-!
Verification of the Burner commitment–exam lifecycle engine.

Shallow embedding of the core logic of the repository:
* `src/features/burner/services/stake-resolution.ts` (`resolveStake`)
* `src/features/burner/services/exam-grader.ts` (`gradeAnswer`,
  `gradeAnswerWithRetry`, `gradeExamQuestions`, `PASS_THRESHOLD`)
* `src/features/burner/services/exam-generator.ts`
  (`generateExamWithRetry`, `validateAndTransformResponse`, `isValidUUID`,
  `RETRY_CONFIG`)
* `src/features/burner/actions/exam-actions.ts` (`generateExam` action,
  `submitAnswer`)
* `src/features/burner/actions/grading-actions.ts` (`gradeExam` action)

Database rows become Lean structures, timestamps become integers
(milliseconds), LLM calls become oracle functions passed as parameters,
and each server action becomes a pure function from the relevant rows to
an outcome together with the updated rows.
-/

deriving instance DecidableEq for Except

namespace Burner

/-- Commitment lifecycle status (`CommitmentStatus` in `types/database.ts`). -/
inductive CommitmentStatus
  | active
  | completed
  | failed
  | expired
deriving DecidableEq

/-- Stake status (`StakeStatus` in `types/database.ts`). -/
inductive StakeStatus
  | at_risk
  | saved
  | burned
deriving DecidableEq

/-- Exam lifecycle status (`ExamStatus` in `types/database.ts`). -/
inductive ExamStatus
  | pending
  | in_progress
  | submitted
  | graded
  | grading_failed
deriving DecidableEq

/-- Question type (`QuestionType` in `types/database.ts`). -/
inductive QuestionType
  | multiple_choice
  | short_answer
  | application
deriving DecidableEq

/-- Question difficulty (`QuestionDifficulty` in `types/database.ts`). -/
inductive QuestionDifficulty
  | intermediate
  | advanced
deriving DecidableEq

/-- A commitment row (`Commitment` in `types/database.ts`), restricted to the
fields the lifecycle logic reads or writes.  Timestamps are integers
(milliseconds since epoch), matching the `Date` comparisons of the source. -/
structure Commitment where
  status : CommitmentStatus
  stake_status : StakeStatus
  retry_used : Bool
  deadline : Int
deriving DecidableEq

/-- Action reported by stake resolution
(`StakeResolutionResult['action']` in `stake-resolution.ts`). -/
inductive ResolveAction
  | saved
  | burned
  | retry_allowed
  | no_change
deriving DecidableEq

/-- Result of `resolveStake` (`StakeResolutionResult` in
`stake-resolution.ts`), with the human-readable `message` field dropped. -/
structure StakeResolutionResult where
  commitment : Commitment
  previousStatus : CommitmentStatus
  previousStakeStatus : StakeStatus
  action : ResolveAction
deriving DecidableEq

/-- `resolveStake` from `stake-resolution.ts`, lines 28–119.  The source
loads the commitment by id, computes new field values through an
if/else-if chain, and writes them back only when something changed; the
returned commitment is the row carrying the new field values either way,
so the embedding returns the commitment with the computed fields directly.
`now` stands for `new Date()` at the moment of the call. -/
def resolveStake (c : Commitment) (passed : Bool) (now : Int) :
    StakeResolutionResult :=
  let deadlinePassed : Bool := decide (now > c.deadline)
  if deadlinePassed = true ∧ c.status = CommitmentStatus.active then
    { commitment :=
        { c with status := CommitmentStatus.expired,
                 stake_status := StakeStatus.burned },
      previousStatus := c.status, previousStakeStatus := c.stake_status,
      action := ResolveAction.burned }
  else if passed = true then
    { commitment :=
        { c with status := CommitmentStatus.completed,
                 stake_status := StakeStatus.saved },
      previousStatus := c.status, previousStakeStatus := c.stake_status,
      action := ResolveAction.saved }
  else if c.retry_used = false then
    { commitment := { c with retry_used := true },
      previousStatus := c.status, previousStakeStatus := c.stake_status,
      action := ResolveAction.retry_allowed }
  else
    { commitment :=
        { c with status := CommitmentStatus.failed,
                 stake_status := StakeStatus.burned },
      previousStatus := c.status, previousStakeStatus := c.stake_status,
      action := ResolveAction.burned }

/-- An exam question (`ExamQuestion` in `types/database.ts`): stored in the
exam row's JSONB `questions` array.  The source field `type` is a Lean
keyword and is embedded as `qtype`. -/
structure ExamQuestion where
  id : String
  qtype : QuestionType
  question : String
  options : Option (List String)
  correct_answer : Option String
  difficulty : QuestionDifficulty
deriving DecidableEq

/-- An answer row (`ExamAnswer` in `types/database.ts`), restricted to the
fields the grading and submission logic reads or writes; rows are keyed by
`question_id` within one exam. -/
structure ExamAnswer where
  question_id : String
  user_answer : String
  score : Option Int
  feedback : Option String
  graded_at : Option Int
deriving DecidableEq

/-- Whitespace for `String.prototype.trim`, restricted to the ASCII
whitespace characters; the claims only distinguish whitespace-only text
from text with substance, which this restriction preserves. -/
def jsIsWhitespace (c : Char) : Bool :=
  c == ' ' || c == '\t' || c == '\n' || c == '\r'

/-- `String.prototype.trim`: removes leading and trailing whitespace. -/
def jsTrim (s : String) : String :=
  String.mk
    (((s.data.dropWhile jsIsWhitespace).reverse.dropWhile
        jsIsWhitespace).reverse)

/-- Error categories of the grading service (`GradingError` in
`exam-grader.ts`). -/
inductive GradingErrorType
  | INVALID_SCORE
  | TIMEOUT
  | RATE_LIMITED
  | MAX_RETRIES_EXCEEDED
  | API_ERROR
deriving DecidableEq

/-- A grading failure: category plus message (`GradingError` variants all
carry a `message` string). -/
structure GradingError where
  etype : GradingErrorType
  message : String
deriving DecidableEq

/-- Result of grading one answer (`GradeResult` in `exam-grader.ts`), with
the observability span id dropped. -/
structure GradeResult where
  score : Int
  feedback : String
deriving DecidableEq

/-- One grading attempt is `attemptGrading` (exam-grader.ts lines 360–443):
a single LLM call followed by `validateGradeResponse`.  The embedding
abstracts it as an oracle from the attempt number to either a validated
`{score, feedback}` or a categorized failure (malformed JSON, schema
violation, timeout, rate limit). -/
abbrev GradeAttemptOracle := Nat → Except GradingError GradeResult

/-- The retry loop of `gradeAnswerWithRetry` (exam-grader.ts lines
320–355), with `GRADER_RETRY_CONFIG.maxRetries = 3`: attempts run while
`remaining` is positive; when all are exhausted a `MAX_RETRIES_EXCEEDED`
failure carrying the last error's message is raised.  The second component
of the result counts the attempts made, i.e. the LLM calls. -/
def gradeRetryGo (oracle : GradeAttemptOracle)
    (attempt remaining : Nat) (lastError : Option GradingError) :
    Except GradingError GradeResult × Nat :=
  match remaining with
  | 0 =>
    (Except.error
        { etype := GradingErrorType.MAX_RETRIES_EXCEEDED,
          message := "Failed to grade answer after 3 attempts. Last error: " ++
            (match lastError with
             | some e => e.message
             | none => "Unknown") },
      attempt - 1)
  | Nat.succ r =>
    match oracle attempt with
    | Except.ok g => (Except.ok g, attempt)
    | Except.error e => gradeRetryGo oracle (attempt + 1) r (some e)

/-- `gradeAnswerWithRetry` (exam-grader.ts lines 320–355). -/
def gradeAnswerWithRetry (oracle : GradeAttemptOracle) :
    Except GradingError GradeResult × Nat :=
  gradeRetryGo oracle 1 3 none

/-- `gradeAnswer` (exam-grader.ts lines 283–315): guards against an empty
question, short-circuits an empty or whitespace-only answer to score 0
with fixed feedback and no LLM call, and otherwise delegates to
`gradeAnswerWithRetry`.  The second component counts LLM calls. -/
def gradeAnswer (oracle : GradeAttemptOracle) (question : ExamQuestion)
    (userAnswer : String) : Except GradingError GradeResult × Nat :=
  if question.question = "" then
    (Except.error
        { etype := GradingErrorType.INVALID_SCORE,
          message := "Question cannot be empty" }, 0)
  else if userAnswer = "" ∨ (jsTrim userAnswer).length = 0 then
    (Except.ok { score := 0, feedback := "No answer provided." }, 0)
  else
    gradeAnswerWithRetry oracle

/-- The answer lookup of `gradeExamQuestions` (exam-grader.ts lines
509–517): the source inserts every answer into a `Map` keyed by
`question_id`, so a later answer for the same question overwrites an
earlier one; lookup therefore finds the last matching answer. -/
def answerMapGet (answers : List ExamAnswer) (qid : String) :
    Option ExamAnswer :=
  answers.reverse.find? (fun a => a.question_id == qid)

/-- The loop body of `gradeExamQuestions` (exam-grader.ts lines 516–544)
for one question: look up the answer (`answer?.user_answer || ''`), grade
an empty or whitespace-only answer as 0 with fixed feedback and no LLM
call, otherwise grade through `gradeAnswerWithRetry`. -/
def gradeOneQuestion (answers : List ExamAnswer)
    (oracle : ExamQuestion → GradeAttemptOracle) (q : ExamQuestion) :
    Except GradingError GradeResult × Nat :=
  let userAnswer :=
    match answerMapGet answers q.id with
    | some a => a.user_answer
    | none => ""
  if userAnswer = "" ∨ (jsTrim userAnswer).length = 0 then
    (Except.ok { score := 0, feedback := "No answer provided." }, 0)
  else
    gradeAnswerWithRetry (oracle q)

/-- The grading loop of `gradeExamQuestions`: questions are graded in exam
order; the first per-question exhaustion aborts the whole aggregate with
the underlying error (the thrown `GradingException` propagates).  Returns
the per-question results and the total LLM call count. -/
def gradeQuestionsGo (answers : List ExamAnswer)
    (oracle : ExamQuestion → GradeAttemptOracle) :
    List ExamQuestion → Except GradingError (List GradeResult × Nat)
  | [] => Except.ok ([], 0)
  | q :: qs =>
    match gradeOneQuestion answers oracle q with
    | (Except.error e, _) => Except.error e
    | (Except.ok r, calls) =>
      match gradeQuestionsGo answers oracle qs with
      | Except.error e => Except.error e
      | Except.ok (rs, c) => Except.ok (r :: rs, calls + c)

/-- `PASS_THRESHOLD` (exam-grader.ts line 39). -/
def PASS_THRESHOLD : Int := 70

/-- `Math.round`: JavaScript rounds to the nearest integer with halfway
cases toward positive infinity, i.e. `Math.round x = ⌊x + 1/2⌋`.  The
IEEE-754 quotient `totalScore / questionResults.length` computed by the
source is exact at every representable halfway point, and every other
quotient arising here (denominator = question count) lies farther from a
halfway point than the floating-point error, so the float computation
agrees with this exact rational one. -/
def jsRound (q : ℚ) : ℤ := ⌊q + 1 / 2⌋

/-- `Math.round (t / n)` in integer arithmetic: Lean's integer division is
Euclidean, which floors for a positive divisor, so for `0 < n` this is
`⌊t / n + 1/2⌋ = jsRound (t / n)` (proved in `mathRound_eq_jsRound`).
Used in the embedding of `gradeExamQuestions` so that results evaluate by
kernel reduction. -/
def mathRound (t : Int) (n : Nat) : Int := (2 * t + (n : Int)) / (2 * (n : Int))

/-- Result of grading a whole exam (`ExamGradeResult` in
`exam-grader.ts`), with the observability trace id dropped. -/
structure ExamGradeResult where
  overallScore : Int
  passed : Bool
  questionResults : List GradeResult
deriving DecidableEq

/-- `gradeExamQuestions` (exam-grader.ts lines 502–565): grade every
question, then `overallScore = Math.round(totalScore /
questionResults.length)` and `passed = overallScore >= PASS_THRESHOLD`.
The second component of a successful outcome counts LLM calls. -/
def gradeExamQuestions (questions : List ExamQuestion)
    (answers : List ExamAnswer) (oracle : ExamQuestion → GradeAttemptOracle) :
    Except GradingError (ExamGradeResult × Nat) :=
  match gradeQuestionsGo answers oracle questions with
  | Except.error e => Except.error e
  | Except.ok (questionResults, calls) =>
    let totalScore : Int := (questionResults.map (fun r => r.score)).sum
    let overallScore : Int := mathRound totalScore questionResults.length
    let passed : Bool := decide (overallScore ≥ PASS_THRESHOLD)
    Except.ok
      ({ overallScore := overallScore, passed := passed,
         questionResults := questionResults }, calls)

/-- The exported `gradeExam` service (exam-grader.ts lines 460–497): fails
fast with a structural error when the exam has no questions or no answers
were provided, otherwise delegates to `gradeExamQuestions`. -/
def gradeExamService (questions : List ExamQuestion)
    (answers : List ExamAnswer) (oracle : ExamQuestion → GradeAttemptOracle) :
    Except GradingError (ExamGradeResult × Nat) :=
  if questions = [] then
    Except.error
      { etype := GradingErrorType.INVALID_SCORE,
        message := "Exam must have questions" }
  else if answers = [] then
    Except.error
      { etype := GradingErrorType.INVALID_SCORE,
        message := "No answers provided for grading" }
  else
    gradeExamQuestions questions answers oracle

/-- Error categories of the generation service (`ExamGenerationError` in
`exam-generator.ts`). -/
inductive ExamGenErrorType
  | INVALID_RESPONSE
  | TIMEOUT
  | RATE_LIMITED
  | MAX_RETRIES_EXCEEDED
  | API_ERROR
deriving DecidableEq

/-- A generation failure: category plus message (`ExamGenerationError`
variants all carry a `message` string). -/
structure ExamGenError where
  etype : ExamGenErrorType
  message : String
deriving DecidableEq

/-- `RETRY_CONFIG.maxRetries` (exam-generator.ts line 431). -/
def RETRY_CONFIG_maxRetries : Nat := 3

/-- `RETRY_CONFIG.backoffMs` (exam-generator.ts line 432). -/
def RETRY_CONFIG_backoffMs : List Nat := [1000, 2000, 4000]

/-- One generation attempt is `attemptGeneration` (exam-generator.ts lines
767–845): one LLM call followed by `validateAndTransformResponse`,
abstracted as an oracle from the attempt number to either the validated
questions or a categorized failure (`categorizeError` of the thrown
error: malformed JSON, schema violation, timeout, rate limit, other). -/
abbrev GenAttemptOracle := Nat → Except ExamGenError (List ExamQuestion)

/-- Whether an `Except` value is a success, i.e. whether the underlying
try/catch took the non-throwing path. -/
def isOkE {ε α : Type} : Except ε α → Bool
  | Except.ok _ => true
  | Except.error _ => false

/-- Outcome of the generation retry loop: the final result, the number of
attempts (= LLM calls) made, and the list of backoff delays awaited (in
milliseconds, in order). -/
structure GenRetryOutcome where
  result : Except ExamGenError (List ExamQuestion)
  attemptsMade : Nat
  delays : List Nat
deriving DecidableEq

/-- The loop of `generateExamWithRetry` (exam-generator.ts lines 727–762):
`for attempt in 1..maxRetries`, try the attempt; on failure record the
categorized error and, unless this was the last attempt, wait
`backoffMs[attempt - 1]`; when all attempts are exhausted raise
`MAX_RETRIES_EXCEEDED` carrying the last error's message. -/
def generateRetryGo (oracle : GenAttemptOracle) (attempt remaining : Nat)
    (lastError : Option ExamGenError) (delays : List Nat) : GenRetryOutcome :=
  match remaining with
  | 0 =>
    { result := Except.error
        { etype := ExamGenErrorType.MAX_RETRIES_EXCEEDED,
          message := "Failed to generate exam after 3 attempts. Last error: " ++
            (match lastError with
             | some e => e.message
             | none => "Unknown") },
      attemptsMade := attempt - 1, delays := delays }
  | Nat.succ r =>
    match oracle attempt with
    | Except.ok qs =>
      { result := Except.ok qs, attemptsMade := attempt, delays := delays }
    | Except.error e =>
      generateRetryGo oracle (attempt + 1) r (some e)
        (if attempt < RETRY_CONFIG_maxRetries then
          delays ++ [RETRY_CONFIG_backoffMs.getD (attempt - 1) 0]
        else delays)

/-- `generateExamWithRetry` (exam-generator.ts lines 727–762). -/
def generateExamWithRetry (oracle : GenAttemptOracle) : GenRetryOutcome :=
  generateRetryGo oracle 1 RETRY_CONFIG_maxRetries none []

/-- A question of the parsed LLM response after the zod schema
`llmQuestionSchema` (exam-generator.ts lines 537–544): enums are
well-formed by typing, `options` and `correct_answer` are optional.  The
source field `type` is a Lean keyword and is embedded as `qtype`. -/
structure LLMQuestion where
  id : String
  qtype : QuestionType
  question : String
  options : Option (List String)
  correct_answer : Option String
  difficulty : QuestionDifficulty
deriving DecidableEq

/-- The zod checks of `llmResponseSchema` (exam-generator.ts lines
537–548) beyond well-typedness: 5–10 questions, each with non-empty
question text. -/
def llmResponseSchemaCheck (questions : List LLMQuestion) : Bool :=
  5 ≤ questions.length && questions.length ≤ 10 &&
    questions.all (fun q => 1 ≤ q.question.length)

/-- Hexadecimal digit, case-insensitive (`[0-9a-f]` under the `/i` flag). -/
def isHexChar (c : Char) : Bool :=
  c.isDigit || ('a' ≤ c && c ≤ 'f') || ('A' ≤ c && c ≤ 'F')

/-- Split a character list at every hyphen (the segments of the UUID
regex between its literal `-`s). -/
def splitOnHyphen : List Char → List (List Char)
  | [] => [[]]
  | c :: cs =>
    if c = '-' then [] :: splitOnHyphen cs
    else
      match splitOnHyphen cs with
      | [] => [[c]]
      | seg :: rest => (c :: seg) :: rest

/-- `isValidUUID` (exam-generator.ts lines 622–625): the regex
`^[0-9a-f]{8}-[0-9a-f]{4}-[1-5][0-9a-f]{3}-[89ab][0-9a-f]{3}-[0-9a-f]{12}$`
with the `/i` flag, decomposed on the hyphens. -/
def isValidUUID (s : String) : Bool :=
  match splitOnHyphen s.data with
  | [a, b, c, d, e] =>
    a.length = 8 && a.all isHexChar &&
    b.length = 4 && b.all isHexChar &&
    c.length = 4 && c.all isHexChar &&
      (match c with
       | ch :: _ => '1' ≤ ch && ch ≤ '5'
       | [] => false) &&
    d.length = 4 && d.all isHexChar &&
      (match d with
       | ch :: _ => ch == '8' || ch == '9' || ch == 'a' || ch == 'b' ||
           ch == 'A' || ch == 'B'
       | [] => false) &&
    e.length = 12 && e.all isHexChar
  | _ => false

/-- The final transformation of `validateAndTransformResponse`
(exam-generator.ts lines 609–616): keep a conforming id or substitute a
fresh UUID (`uuidv4()`, modelled as a generator indexed by position), and
strip `options`/`correct_answer` from non-multiple-choice questions. -/
def transformQuestion (fresh : Nat → String) (i : Nat) (q : LLMQuestion) :
    ExamQuestion :=
  { id := if isValidUUID q.id then q.id else fresh i,
    qtype := q.qtype,
    question := q.question,
    options :=
      if q.qtype = QuestionType.multiple_choice then q.options else none,
    correct_answer :=
      if q.qtype = QuestionType.multiple_choice then q.correct_answer
      else none,
    difficulty := q.difficulty }

/-- `questions.map` with the per-element fresh-UUID source indexed by
position (the call order of `uuidv4()` in the source's single `map`). -/
def transformQuestions (fresh : Nat → String) (i : Nat) :
    List LLMQuestion → List ExamQuestion
  | [] => []
  | q :: qs => transformQuestion fresh i q :: transformQuestions fresh (i + 1) qs

/-- `validateAndTransformResponse` (exam-generator.ts lines 553–617) from
the parsed JSON value on: the zod schema check, the (redundant) count
check, the type-coverage check, the multiple-choice checks — exactly 4
options (`!q.options || q.options.length !== 4`) and a truthy
`correct_answer` (`!q.correct_answer`, so the empty string fails) — and
the transformation to `ExamQuestion[]`.  The JSON-extraction and parse
step preceding the schema check is outside this embedding: a fenced or
malformed raw text fails earlier and surfaces as the same thrown error. -/
def validateAndTransformResponse (fresh : Nat → String)
    (questions : List LLMQuestion) : Except String (List ExamQuestion) :=
  if ¬ llmResponseSchemaCheck questions then
    Except.error "Invalid exam structure"
  else if questions.length < 5 ∨ questions.length > 10 then
    Except.error "Expected 5-10 questions"
  else if ¬ (questions.any (fun q => q.qtype = QuestionType.multiple_choice) &&
      questions.any (fun q => q.qtype = QuestionType.short_answer) &&
      questions.any (fun q => q.qtype = QuestionType.application)) then
    Except.error "Missing required question types"
  else if ¬ questions.all (fun q =>
      q.qtype ≠ QuestionType.multiple_choice ||
        (match q.options with
         | some opts => opts.length = 4
         | none => false)) then
    Except.error "Multiple choice question must have exactly 4 options"
  else if ¬ questions.all (fun q =>
      q.qtype ≠ QuestionType.multiple_choice ||
        (match q.correct_answer with
         | some s => ¬ s = ""
         | none => false)) then
    Except.error "Multiple choice question must have a correct_answer"
  else
    Except.ok (transformQuestions fresh 0 questions)

/-- An exam row (`Exam` in `types/database.ts`), restricted to the fields
the lifecycle logic reads or writes. -/
structure ExamRow where
  status : ExamStatus
  questions : List ExamQuestion
  overall_score : Option Int
  passed : Option Bool
deriving DecidableEq

/-- An exam is unresolved while `pending`, `in_progress` or `submitted`. -/
def isUnresolved (e : ExamRow) : Bool :=
  e.status = ExamStatus.pending || e.status = ExamStatus.in_progress ||
    e.status = ExamStatus.submitted

/-- Outcome of the `generateExam` server action: the created exam row, or
a rejection with the error code of the returned validation error. -/
inductive GenActionOutcome
  | ok (exam : ExamRow)
  | rejected (code : String)
deriving DecidableEq

/-- The `generateExam` server action (exam-actions.ts lines 48–135) for a
found commitment: guards in source order — authentication, ownership,
commitment active, deadline not passed (`new Date(commitment.deadline) <
new Date()` rejects) — then the generation service (whose thrown
exhaustion exception the action catches into a `server_error` rejection)
and the insert of a `pending` exam row.  `exams` is the list of exam rows
of this commitment; the source never reads it.  The generation service's
own input guards (non-empty topic, count in [5,10]) pass for every
persisted commitment since the action fixes the count to 7 and commitment
topics are 3–200 characters. -/
def generateExamAction (signedIn ownerOk : Bool) (c : Commitment)
    (exams : List ExamRow) (now : Int) (oracle : GenAttemptOracle) :
    GenActionOutcome × List ExamRow :=
  if signedIn = false then (GenActionOutcome.rejected "unauthorized", exams)
  else if ownerOk = false then (GenActionOutcome.rejected "forbidden", exams)
  else if ¬ c.status = CommitmentStatus.active then
    (GenActionOutcome.rejected "invalid_status", exams)
  else if c.deadline < now then
    (GenActionOutcome.rejected "deadline_passed", exams)
  else
    match (generateExamWithRetry oracle).result with
    | Except.error _ => (GenActionOutcome.rejected "server_error", exams)
    | Except.ok qs =>
      (GenActionOutcome.ok
          { status := ExamStatus.pending, questions := qs,
            overall_score := none, passed := none },
        exams ++
          [{ status := ExamStatus.pending, questions := qs,
             overall_score := none, passed := none }])

/-- Outcome of the `submitAnswer` server action. -/
inductive SubmitOutcome
  | ok (answer : ExamAnswer)
  | rejected (code : String)
deriving DecidableEq

/-- The `submitAnswer` server action (exam-actions.ts lines 215–328) for a
found exam: guards in source order — authentication, non-blank answer
(`!answer?.trim()`), ownership, exam `in_progress`, question present —
then either updates the existing answer row for `(exam, question)`
(setting only `user_answer` to the trimmed text) or inserts a fresh row.
The source updates the single row found by the `(exam_id, question_id)`
lookup, keyed by its row id; the embedding updates the matching row in
the exam's answer list. -/
def submitAnswer (signedIn ownerOk : Bool) (exam : ExamRow)
    (answers : List ExamAnswer) (questionId answer : String) :
    SubmitOutcome × List ExamAnswer :=
  if signedIn = false then (SubmitOutcome.rejected "unauthorized", answers)
  else if jsTrim answer = "" then
    (SubmitOutcome.rejected "invalid_input", answers)
  else if ownerOk = false then (SubmitOutcome.rejected "forbidden", answers)
  else if ¬ exam.status = ExamStatus.in_progress then
    (SubmitOutcome.rejected "invalid_status", answers)
  else if ¬ exam.questions.any (fun q => q.id == questionId) then
    (SubmitOutcome.rejected "not_found", answers)
  else
    match answers.find? (fun a => a.question_id == questionId) with
    | some existing =>
      (SubmitOutcome.ok { existing with user_answer := jsTrim answer },
        answers.map (fun a =>
          if a.question_id == questionId then
            { a with user_answer := jsTrim answer }
          else a))
    | none =>
      (SubmitOutcome.ok
          { question_id := questionId, user_answer := jsTrim answer,
            score := none, feedback := none, graded_at := none },
        answers ++
          [{ question_id := questionId, user_answer := jsTrim answer,
             score := none, feedback := none, graded_at := none }])

/-- The rows the grading action reads and writes: the exam, its answers,
and the commitment owning the exam. -/
structure GradingState where
  commitment : Commitment
  exam : ExamRow
  answers : List ExamAnswer
deriving DecidableEq

/-- Outcome of the `gradeExam` server action. -/
inductive GradingActionOutcome
  | ok (result : ExamGradeResult)
  | rejected (code : String)
deriving DecidableEq

/-- The `gradeExam` server action (grading-actions.ts lines 935–1033 of
the bundled source) for a found exam: guards in source order —
authentication, ownership, exam `submitted` — then the grading service;
on a grading failure the exam is marked `grading_failed`; on success the
exam row gets `status = graded`, `overall_score` and `passed`, and each
answer row whose question index has a result gets `score`, `feedback` and
`graded_at`.  The action never touches the commitment row: no call to
`resolveStake` (or any commitment update) appears anywhere in it, and
`resolveStake` has no caller in the repository. -/
def gradeExamAction (signedIn ownerOk : Bool) (st : GradingState)
    (oracle : ExamQuestion → GradeAttemptOracle) (gradedAt : Int) :
    GradingActionOutcome × GradingState :=
  if signedIn = false then
    (GradingActionOutcome.rejected "unauthorized", st)
  else if ownerOk = false then (GradingActionOutcome.rejected "forbidden", st)
  else if ¬ st.exam.status = ExamStatus.submitted then
    (GradingActionOutcome.rejected "invalid_status", st)
  else
    match gradeExamService st.exam.questions st.answers oracle with
    | Except.error _ =>
      (GradingActionOutcome.rejected "grading",
        { st with exam := { st.exam with status := ExamStatus.grading_failed } })
    | Except.ok (res, _) =>
      let exam' : ExamRow :=
        { st.exam with
          status := ExamStatus.graded,
          overall_score := some res.overallScore,
          passed := some res.passed }
      let answers' : List ExamAnswer :=
        st.answers.map (fun a =>
          match st.exam.questions.findIdx? (fun q => q.id == a.question_id) with
          | some i =>
            match res.questionResults.get? i with
            | some r =>
              { a with
                score := some r.score,
                feedback := some r.feedback,
                graded_at := some gradedAt }
            | none => a
          | none => a)
      (GradingActionOutcome.ok res,
        { st with exam := exam', answers := answers' })

/-- A concrete valid question set (five questions covering all three
types) for concrete instances. -/
def sampleQuestions : List ExamQuestion :=
  [{ id := "11111111-1111-1111-8111-111111111111",
     qtype := QuestionType.multiple_choice, question := "Q1",
     options := some ["A) a", "B) b", "C) c", "D) d"],
     correct_answer := some "A",
     difficulty := QuestionDifficulty.intermediate },
   { id := "22222222-2222-2222-8222-222222222222",
     qtype := QuestionType.short_answer, question := "Q2",
     options := none, correct_answer := none,
     difficulty := QuestionDifficulty.intermediate },
   { id := "33333333-3333-3333-8333-333333333333",
     qtype := QuestionType.application, question := "Q3",
     options := none, correct_answer := none,
     difficulty := QuestionDifficulty.advanced },
   { id := "44444444-4444-4444-8444-444444444444",
     qtype := QuestionType.short_answer, question := "Q4",
     options := none, correct_answer := none,
     difficulty := QuestionDifficulty.intermediate },
   { id := "55555555-5555-5555-8555-555555555555",
     qtype := QuestionType.application, question := "Q5",
     options := none, correct_answer := none,
     difficulty := QuestionDifficulty.advanced }]

/-- One non-blank answer per question of `sampleQuestions`. -/
def sampleAnswers : List ExamAnswer :=
  [{ question_id := "11111111-1111-1111-8111-111111111111",
     user_answer := "A", score := none, feedback := none, graded_at := none },
   { question_id := "22222222-2222-2222-8222-222222222222",
     user_answer := "a2", score := none, feedback := none, graded_at := none },
   { question_id := "33333333-3333-3333-8333-333333333333",
     user_answer := "a3", score := none, feedback := none, graded_at := none },
   { question_id := "44444444-4444-4444-8444-444444444444",
     user_answer := "a4", score := none, feedback := none, graded_at := none },
   { question_id := "55555555-5555-5555-8555-555555555555",
     user_answer := "a5", score := none, feedback := none, graded_at := none }]

/-- `mathRound` agrees with rounding the exact rational quotient. -/
theorem mathRound_eq_jsRound (t : Int) (n : Nat) (h : 0 < n) :
    mathRound t n = jsRound ((t : ℚ) / (n : ℚ)) := by
  unfold mathRound jsRound
  have hn : ((n : ℚ)) ≠ 0 := by positivity
  have hq : ((t : ℚ) / (n : ℚ) + 1 / 2) =
      (((2 * t + (n : Int) : Int) : ℚ) / ((2 * n : ℕ) : ℚ)) := by
    push_cast
    field_simp
    ring
  rw [hq, Rat.floor_intCast_div_natCast]
  push_cast
  ring_nf


/-- A successful grading loop returns one result per question. -/
theorem gradeQuestionsGo_length (answers : List ExamAnswer)
    (oracle : ExamQuestion → GradeAttemptOracle) (qs : List ExamQuestion)
    (rs : List GradeResult) (c : Nat)
    (h : gradeQuestionsGo answers oracle qs = Except.ok (rs, c)) :
    rs.length = qs.length := by
  induction qs generalizing rs c with
  | nil =>
    simp only [gradeQuestionsGo, Except.ok.injEq, Prod.mk.injEq] at h
    simp [← h.1]
  | cons q qs ih =>
    simp only [gradeQuestionsGo] at h
    rcases h1 : gradeOneQuestion answers oracle q with ⟨res, calls⟩
    rw [h1] at h
    rcases res with e | r
    · simp at h
    · rcases h2 : gradeQuestionsGo answers oracle qs with e | pr
      · rw [h2] at h; simp at h
      · rw [h2] at h
        obtain ⟨rs', c'⟩ := pr
        simp only [Except.ok.injEq, Prod.mk.injEq] at h
        obtain ⟨hrs, -⟩ := h
        subst hrs
        simp [ih rs' c' h2]

/-- C6 — confirmed.  For every exam with a non-empty question list and at
least one answer that the grading service grades successfully, the overall
score is `Math.round` of the arithmetic mean of the per-question scores
(one score per question of the exam, in exam order), and `passed` holds
exactly when the overall score reaches 70: an overall score of 70 passes
and 69 fails. -/
theorem gradeExam_overall_score_mean (questions : List ExamQuestion)
    (answers : List ExamAnswer) (oracle : ExamQuestion → GradeAttemptOracle)
    (result : ExamGradeResult) (calls : Nat)
    (hq : ¬ questions = []) (ha : ¬ answers = [])
    (h : gradeExamService questions answers oracle = Except.ok (result, calls)) :
    result.overallScore =
      jsRound
        ((((result.questionResults.map (fun r => r.score)).sum : Int) : ℚ) /
          (result.questionResults.length : ℚ)) ∧
    result.questionResults.length = questions.length ∧
    (result.passed = true ↔ result.overallScore ≥ 70) ∧
    (result.overallScore = 70 → result.passed = true) ∧
    (result.overallScore = 69 → result.passed = false) := by
  unfold gradeExamService at h
  rw [if_neg hq, if_neg ha] at h
  unfold gradeExamQuestions at h
  rcases hgo : gradeQuestionsGo answers oracle questions with e | pr
  · rw [hgo] at h; simp at h
  · rw [hgo] at h
    obtain ⟨rs, cnt⟩ := pr
    simp only [Except.ok.injEq, Prod.mk.injEq] at h
    obtain ⟨hres, -⟩ := h
    subst hres
    have hlen := gradeQuestionsGo_length answers oracle questions rs cnt hgo
    have hpos : 0 < rs.length := by
      rw [hlen]
      exact List.length_pos.mpr hq
    refine ⟨?_, hlen, ?_, ?_, ?_⟩
    · dsimp only
      exact mathRound_eq_jsRound _ _ hpos
    · simp [PASS_THRESHOLD]
    · intro h70
      dsimp only at h70 ⊢
      simp only [decide_eq_true_eq]
      rw [h70]
      simp [PASS_THRESHOLD]
    · intro h69
      dsimp only at h69 ⊢
      simp only [decide_eq_false_iff_not, PASS_THRESHOLD]
      rw [h69]
      norm_num

/-- C6 — witness: two questions scored 100 and 40 grade successfully to
overall score 70, which passes (the boundary case). -/
theorem gradeExam_overall_score_mean_witness :
    ({ overallScore := 70, passed := true,
       questionResults :=
         [{ score := 100, feedback := "full" },
          { score := 40, feedback := "partial" }] } :
        ExamGradeResult).passed = true ↔
    ({ overallScore := 70, passed := true,
       questionResults :=
         [{ score := 100, feedback := "full" },
          { score := 40, feedback := "partial" }] } :
        ExamGradeResult).overallScore ≥ 70 := by
  have h := gradeExam_overall_score_mean
    [{ id := "q1", qtype := QuestionType.short_answer, question := "a",
       options := none, correct_answer := none,
       difficulty := QuestionDifficulty.intermediate },
     { id := "q2", qtype := QuestionType.application, question := "b",
       options := none, correct_answer := none,
       difficulty := QuestionDifficulty.advanced }]
    [{ question_id := "q1", user_answer := "x", score := none,
       feedback := none, graded_at := none },
     { question_id := "q2", user_answer := "y", score := none,
       feedback := none, graded_at := none }]
    (fun q _ =>
      if q.id = "q1" then Except.ok { score := 100, feedback := "full" }
      else Except.ok { score := 40, feedback := "partial" })
    { overallScore := 70, passed := true,
      questionResults :=
        [{ score := 100, feedback := "full" },
         { score := 40, feedback := "partial" }] }
    2 (by simp) (by simp) (by decide)
  exact h.2.2.1

/-- C9 — confirmed.  A missing answer for a question, and an answer whose
text is empty or whitespace-only, grade to score 0 with the fixed feedback
string and zero LLM calls, both in the per-question loop of
`gradeExamQuestions` and in the standalone `gradeAnswer`. -/
theorem grade_blank_answer_zero (answers : List ExamAnswer)
    (oracle : ExamQuestion → GradeAttemptOracle) (q : ExamQuestion)
    (oracle₂ : GradeAttemptOracle) (ua : String)
    (hblank :
      answerMapGet answers q.id = none ∨
      ∃ a, answerMapGet answers q.id = some a ∧
        (jsTrim a.user_answer).length = 0)
    (hq : ¬ q.question = "") (hua : (jsTrim ua).length = 0) :
    gradeOneQuestion answers oracle q =
      (Except.ok { score := 0, feedback := "No answer provided." }, 0) ∧
    gradeAnswer oracle₂ q ua =
      (Except.ok { score := 0, feedback := "No answer provided." }, 0) := by
  constructor
  · unfold gradeOneQuestion
    rcases hblank with hnone | ⟨a, hsome, hlen⟩
    · rw [hnone]
      simp
    · rw [hsome]
      simp only
      rw [if_pos (Or.inr hlen)]
  · unfold gradeAnswer
    rw [if_neg hq, if_pos (Or.inr hua)]

/-- C9 — witness: a whitespace-only stored answer and a missing answer on
concrete data. -/
theorem grade_blank_answer_zero_witness :
    gradeOneQuestion
        [{ question_id := "q1", user_answer := "   ", score := none,
           feedback := none, graded_at := none }]
        (fun _ _ => Except.error
          { etype := GradingErrorType.API_ERROR, message := "down" })
        { id := "q1", qtype := QuestionType.short_answer, question := "a",
          options := none, correct_answer := none,
          difficulty := QuestionDifficulty.intermediate } =
      (Except.ok { score := 0, feedback := "No answer provided." }, 0) ∧
    gradeAnswer
        (fun _ => Except.error
          { etype := GradingErrorType.API_ERROR, message := "down" })
        { id := "q1", qtype := QuestionType.short_answer, question := "a",
          options := none, correct_answer := none,
          difficulty := QuestionDifficulty.intermediate } "  " =
      (Except.ok { score := 0, feedback := "No answer provided." }, 0) :=
  grade_blank_answer_zero
    [{ question_id := "q1", user_answer := "   ", score := none,
       feedback := none, graded_at := none }]
    (fun _ _ => Except.error
      { etype := GradingErrorType.API_ERROR, message := "down" })
    { id := "q1", qtype := QuestionType.short_answer, question := "a",
      options := none, correct_answer := none,
      difficulty := QuestionDifficulty.intermediate }
    (fun _ => Except.error
      { etype := GradingErrorType.API_ERROR, message := "down" }) "  "
    (Or.inr
      ⟨{ question_id := "q1", user_answer := "   ", score := none,
         feedback := none, graded_at := none }, by decide, by decide⟩)
    (by decide) (by decide)

/-- C2 — counterexample.  The claim asserts that `resolveStake` never
mutates a commitment whose status is terminal, for every `examPassed`
value.  On the code, a `failed`/`burned` commitment with `retry_used`
re-resolved with a passing result is moved to `completed`/`saved`: no
branch of `resolveStake` guards on the status being terminal except the
deadline rule. -/
theorem resolveStake_terminal_mutation_cex :
    (resolveStake
        { status := CommitmentStatus.failed, stake_status := StakeStatus.burned,
          retry_used := true, deadline := 100 } true 50).commitment ≠
      { status := CommitmentStatus.failed, stake_status := StakeStatus.burned,
        retry_used := true, deadline := 100 } ∧
    (resolveStake
        { status := CommitmentStatus.failed, stake_status := StakeStatus.burned,
          retry_used := true, deadline := 100 } true 50).commitment.status =
      CommitmentStatus.completed := by
  constructor
  · decide
  · decide

/-- C2 — amended.  `resolveStake` is idempotent on a terminal commitment
only when re-invoked with the outcome that produced it: a
`completed`/`saved` commitment is unchanged by a passing resolution, a
`failed`/`burned` commitment with `retry_used` is unchanged by a failing
resolution, and invoking resolve twice with the same passing result never
changes a commitment already `completed`. -/
theorem resolveStake_matching_outcome_idempotent (c : Commitment)
    (now now₂ : Int) :
    (c.status = CommitmentStatus.completed →
        c.stake_status = StakeStatus.saved →
        (resolveStake c true now).commitment = c) ∧
    (c.status = CommitmentStatus.failed →
        c.stake_status = StakeStatus.burned → c.retry_used = true →
        (resolveStake c false now).commitment = c) ∧
    ((resolveStake c true now).commitment.status = CommitmentStatus.completed →
        (resolveStake ((resolveStake c true now).commitment) true
            now₂).commitment =
          (resolveStake c true now).commitment) := by
  obtain ⟨st, sk, r, d⟩ := c
  refine ⟨?_, ?_, ?_⟩
  · rintro rfl rfl
    simp [resolveStake]
  · rintro rfl rfl rfl
    simp [resolveStake]
  · intro h
    rcases st <;> rcases sk <;> rcases r <;>
      simp_all [resolveStake] <;> split_ifs at h ⊢ <;> simp_all

/-- C2 — witness for the amended theorem at a concrete commitment. -/
theorem resolveStake_matching_outcome_idempotent_witness :
    (resolveStake
        { status := CommitmentStatus.completed, stake_status := StakeStatus.saved,
          retry_used := false, deadline := 100 } true 50).commitment =
      { status := CommitmentStatus.completed, stake_status := StakeStatus.saved,
        retry_used := false, deadline := 100 } :=
  (resolveStake_matching_outcome_idempotent
      { status := CommitmentStatus.completed, stake_status := StakeStatus.saved,
        retry_used := false, deadline := 100 } 50 60).1 rfl rfl

/-- C3 — counterexample.  The claim quantifies over every commitment, but
the deadline rule of `resolveStake` additionally requires
`commitment.status === 'active'`: a `completed` commitment past its
deadline re-resolved with a passing result yields action `saved`, not
`expired`/`burned`. -/
theorem resolveStake_deadline_cex :
    (200 : Int) > (100 : Int) ∧
    (resolveStake
        { status := CommitmentStatus.completed, stake_status := StakeStatus.saved,
          retry_used := true, deadline := 100 } true 200).action =
      ResolveAction.saved ∧
    (resolveStake
        { status := CommitmentStatus.completed, stake_status := StakeStatus.saved,
          retry_used := true, deadline := 100 } true 200).commitment.status ≠
      CommitmentStatus.expired := by
  refine ⟨by norm_num, by decide, by decide⟩

/-- C3 — amended.  For every *active* commitment and every `examPassed`
value, if `now` is past the deadline then `resolveStake` yields
`expired`/`burned` with action `burned` regardless of `examPassed`:
the deadline rule is the first branch, evaluated before the pass rule. -/
theorem resolveStake_deadline_precedence (c : Commitment) (passed : Bool)
    (now : Int) (hdl : now > c.deadline)
    (hact : c.status = CommitmentStatus.active) :
    (resolveStake c passed now).commitment.status = CommitmentStatus.expired ∧
    (resolveStake c passed now).commitment.stake_status = StakeStatus.burned ∧
    (resolveStake c passed now).action = ResolveAction.burned := by
  simp [resolveStake, hact, hdl]

/-- C3 — witness: the deadline rule fires on a concrete late pass. -/
theorem resolveStake_deadline_precedence_witness :
    (resolveStake
        { status := CommitmentStatus.active, stake_status := StakeStatus.at_risk,
          retry_used := false, deadline := 100 } true 200).commitment.status =
        CommitmentStatus.expired ∧
    (resolveStake
        { status := CommitmentStatus.active, stake_status := StakeStatus.at_risk,
          retry_used := false, deadline := 100 } true 200).commitment.stake_status =
        StakeStatus.burned ∧
    (resolveStake
        { status := CommitmentStatus.active, stake_status := StakeStatus.at_risk,
          retry_used := false, deadline := 100 } true 200).action =
      ResolveAction.burned :=
  resolveStake_deadline_precedence
    { status := CommitmentStatus.active, stake_status := StakeStatus.at_risk,
      retry_used := false, deadline := 100 } true 200 (by norm_num) rfl

/-- C7 — confirmed.  A first failing resolution on an active commitment
with an unused retry and an unexpired deadline yields `retry_allowed`,
flips `retry_used` to true and leaves status and stake status unchanged;
a second failing resolution on the resulting commitment (still before the
deadline) yields `failed`/`burned`. -/
theorem resolveStake_retry_semantics (c : Commitment) (now now₂ : Int)
    (hact : c.status = CommitmentStatus.active) (hret : c.retry_used = false)
    (hdl : ¬ now > c.deadline) :
    (resolveStake c false now).action = ResolveAction.retry_allowed ∧
    (resolveStake c false now).commitment.retry_used = true ∧
    (resolveStake c false now).commitment.status = c.status ∧
    (resolveStake c false now).commitment.stake_status = c.stake_status ∧
    (¬ now₂ > c.deadline →
      (resolveStake ((resolveStake c false now).commitment) false
          now₂).commitment.status = CommitmentStatus.failed ∧
      (resolveStake ((resolveStake c false now).commitment) false
          now₂).commitment.stake_status = StakeStatus.burned ∧
      (resolveStake ((resolveStake c false now).commitment) false
          now₂).action = ResolveAction.burned) := by
  have h1 : resolveStake c false now =
      { commitment := { c with retry_used := true },
        previousStatus := c.status, previousStakeStatus := c.stake_status,
        action := ResolveAction.retry_allowed } := by
    simp [resolveStake, hdl, hret]
  refine ⟨by rw [h1], by rw [h1], by rw [h1], by rw [h1], ?_⟩
  intro hdl₂
  rw [h1]
  simp [resolveStake, hdl₂, hact]

/-- C7 — witness: the retry pair of resolutions on a concrete commitment. -/
theorem resolveStake_retry_semantics_witness :
    (resolveStake
        { status := CommitmentStatus.active, stake_status := StakeStatus.at_risk,
          retry_used := false, deadline := 100 } false 50).action =
      ResolveAction.retry_allowed ∧
    (resolveStake
        { status := CommitmentStatus.active, stake_status := StakeStatus.at_risk,
          retry_used := false, deadline := 100 } false 50).commitment.retry_used =
      true ∧
    (resolveStake
        { status := CommitmentStatus.active, stake_status := StakeStatus.at_risk,
          retry_used := false, deadline := 100 } false 50).commitment.status =
      CommitmentStatus.active ∧
    (resolveStake
        { status := CommitmentStatus.active, stake_status := StakeStatus.at_risk,
          retry_used := false, deadline := 100 } false 50).commitment.stake_status =
      StakeStatus.at_risk ∧
    (¬ (60 : Int) > (100 : Int) →
      (resolveStake
          ((resolveStake
              { status := CommitmentStatus.active,
                stake_status := StakeStatus.at_risk,
                retry_used := false, deadline := 100 } false 50).commitment)
          false 60).commitment.status = CommitmentStatus.failed ∧
      (resolveStake
          ((resolveStake
              { status := CommitmentStatus.active,
                stake_status := StakeStatus.at_risk,
                retry_used := false, deadline := 100 } false 50).commitment)
          false 60).commitment.stake_status = StakeStatus.burned ∧
      (resolveStake
          ((resolveStake
              { status := CommitmentStatus.active,
                stake_status := StakeStatus.at_risk,
                retry_used := false, deadline := 100 } false 50).commitment)
          false 60).action = ResolveAction.burned) := by
  have hs : (50 : Int) > (100 : Int) → False := by norm_num
  exact resolveStake_retry_semantics
    { status := CommitmentStatus.active, stake_status := StakeStatus.at_risk,
      retry_used := false, deadline := 100 } 50 60 rfl rfl hs

/-- C1 — the grading action never invokes the stake resolver.  Evaluated
at a concrete successfully graded exam (every answer scored 100, so the
exam passes): the action marks the exam `graded` with `passed = true` and
writes every answer's grade, yet the commitment row is returned exactly
as it was — status `active`, stake status `at_risk` — whereas a
`resolveStake` invocation with this pass outcome would have moved the
stake to `saved`.  A reader therefore observes a graded, passed exam
whose commitment stake status still reflects the pre-grading state. -/
theorem gradeExam_leaves_stake_unresolved :
    (gradeExamAction true true
        { commitment :=
            { status := CommitmentStatus.active,
              stake_status := StakeStatus.at_risk,
              retry_used := false, deadline := 1000000 },
          exam :=
            { status := ExamStatus.submitted, questions := sampleQuestions,
              overall_score := none, passed := none },
          answers := sampleAnswers }
        (fun _ _ => Except.ok { score := 100, feedback := "correct" })
        999).2.exam.status = ExamStatus.graded ∧
    (gradeExamAction true true
        { commitment :=
            { status := CommitmentStatus.active,
              stake_status := StakeStatus.at_risk,
              retry_used := false, deadline := 1000000 },
          exam :=
            { status := ExamStatus.submitted, questions := sampleQuestions,
              overall_score := none, passed := none },
          answers := sampleAnswers }
        (fun _ _ => Except.ok { score := 100, feedback := "correct" })
        999).2.exam.passed = some true ∧
    (gradeExamAction true true
        { commitment :=
            { status := CommitmentStatus.active,
              stake_status := StakeStatus.at_risk,
              retry_used := false, deadline := 1000000 },
          exam :=
            { status := ExamStatus.submitted, questions := sampleQuestions,
              overall_score := none, passed := none },
          answers := sampleAnswers }
        (fun _ _ => Except.ok { score := 100, feedback := "correct" })
        999).2.answers.all (fun a => ¬ a.score = none) = true ∧
    (gradeExamAction true true
        { commitment :=
            { status := CommitmentStatus.active,
              stake_status := StakeStatus.at_risk,
              retry_used := false, deadline := 1000000 },
          exam :=
            { status := ExamStatus.submitted, questions := sampleQuestions,
              overall_score := none, passed := none },
          answers := sampleAnswers }
        (fun _ _ => Except.ok { score := 100, feedback := "correct" })
        999).2.commitment =
      { status := CommitmentStatus.active, stake_status := StakeStatus.at_risk,
        retry_used := false, deadline := 1000000 } ∧
    (resolveStake
        { status := CommitmentStatus.active, stake_status := StakeStatus.at_risk,
          retry_used := false, deadline := 1000000 } true
        999).commitment.stake_status = StakeStatus.saved := by
  refine ⟨by decide, by decide, by decide, by decide, by decide⟩

/-- C5 — counterexample.  The claim asserts exam generation is rejected
while the commitment already has an unresolved exam.  On the code, the
`generateExam` action never queries the commitment's existing exams: with
one `pending` exam already present, a second generation succeeds and the
commitment ends up with two unresolved exams. -/
theorem generateExam_unresolved_not_checked_cex :
    (generateExamAction true true
        { status := CommitmentStatus.active, stake_status := StakeStatus.at_risk,
          retry_used := false, deadline := 1000000 }
        [{ status := ExamStatus.pending, questions := sampleQuestions,
           overall_score := none, passed := none }]
        50 (fun _ => Except.ok sampleQuestions)).1 =
      GenActionOutcome.ok
        { status := ExamStatus.pending, questions := sampleQuestions,
          overall_score := none, passed := none } ∧
    (generateExamAction true true
        { status := CommitmentStatus.active, stake_status := StakeStatus.at_risk,
          retry_used := false, deadline := 1000000 }
        [{ status := ExamStatus.pending, questions := sampleQuestions,
           overall_score := none, passed := none }]
        50 (fun _ => Except.ok sampleQuestions)).2.countP
        (fun e => isUnresolved e) = 2 := by
  refine ⟨by decide, by decide⟩

/-- C5 — amended.  The `generateExam` action does not consult the
commitment's existing exams at all: it succeeds exactly when the caller
is authenticated and owns an `active` commitment whose deadline has not
passed and generation succeeds — for every content of the existing exam
list — appending one fresh `pending` exam on success and leaving the exam
list unchanged on rejection. -/
theorem generateExamAction_success_iff (signedIn ownerOk : Bool)
    (c : Commitment) (exams : List ExamRow) (now : Int)
    (oracle : GenAttemptOracle) :
    ((∀ e, ¬ (generateExamAction signedIn ownerOk c exams now oracle).1 =
          GenActionOutcome.ok e) ↔
      ¬ (signedIn = true ∧ ownerOk = true ∧
          c.status = CommitmentStatus.active ∧ ¬ c.deadline < now ∧
          isOkE (generateExamWithRetry oracle).result = true)) ∧
    (∀ e, (generateExamAction signedIn ownerOk c exams now oracle).1 =
          GenActionOutcome.ok e →
        e.status = ExamStatus.pending ∧
        (generateExamAction signedIn ownerOk c exams now oracle).2 =
          exams ++ [e]) ∧
    (∀ code, (generateExamAction signedIn ownerOk c exams now oracle).1 =
          GenActionOutcome.rejected code →
        (generateExamAction signedIn ownerOk c exams now oracle).2 = exams) := by
  cases signedIn with
  | false => simp [generateExamAction]
  | true =>
    cases ownerOk with
    | false => simp [generateExamAction]
    | true =>
      by_cases hst : c.status = CommitmentStatus.active
      · by_cases hdl : c.deadline < now
        · simp [generateExamAction, hst, hdl]
        · rcases hgen : (generateExamWithRetry oracle).result with e | qs
          · simp [generateExamAction, hst, hdl, hgen, isOkE]
          · simp [generateExamAction, hst, hdl, hgen, isOkE]
      · simp [generateExamAction, hst]

/-- C5 — witness for the amended theorem: a concrete successful
generation appends one pending exam to an empty exam list. -/
theorem generateExamAction_success_iff_witness :
    (generateExamAction true true
        { status := CommitmentStatus.active, stake_status := StakeStatus.at_risk,
          retry_used := false, deadline := 1000000 }
        [] 50 (fun _ => Except.ok sampleQuestions)).2 =
      [] ++
        [{ status := ExamStatus.pending, questions := sampleQuestions,
           overall_score := none, passed := none }] :=
  ((generateExamAction_success_iff true true
      { status := CommitmentStatus.active, stake_status := StakeStatus.at_risk,
        retry_used := false, deadline := 1000000 }
      [] 50 (fun _ => Except.ok sampleQuestions)).2.1
    { status := ExamStatus.pending, questions := sampleQuestions,
      overall_score := none, passed := none } (by decide)).2

/-- C10 — counterexample.  The claim asserts resubmission clears any
prior score and feedback on the answer row.  On the code, the update sets
only `user_answer`: resubmitting over a row carrying `score = 50` and
feedback leaves both grading fields in place. -/
theorem submitAnswer_keeps_prior_grade_cex :
    (submitAnswer true true
        { status := ExamStatus.in_progress, questions := sampleQuestions,
          overall_score := none, passed := none }
        [{ question_id := "22222222-2222-2222-8222-222222222222",
           user_answer := "old", score := some 50, feedback := some "good",
           graded_at := some 1 }]
        "22222222-2222-2222-8222-222222222222" "new").2 =
      [{ question_id := "22222222-2222-2222-8222-222222222222",
         user_answer := "new", score := some 50, feedback := some "good",
         graded_at := some 1 }] ∧
    ¬ (some (50 : Int) = (none : Option Int)) ∧
    ¬ (some "good" = (none : Option String)) := by
  refine ⟨by decide, by decide, by decide⟩

/-- C10 — amended.  Resubmitting an answer for an `(exam, question)` pair
that already has its single answer row keeps exactly one row for the
pair and overwrites the stored text with the trimmed new text, while the
prior score and feedback on that row are left unchanged (not cleared); in
every reachable state they are `null` anyway, since resubmission requires
the exam `in_progress` and grading only writes them after submission. -/
theorem submitAnswer_overwrite_preserves_grade (exam : ExamRow)
    (answers : List ExamAnswer) (questionId answer : String) (ex : ExamAnswer)
    (hblank : ¬ jsTrim answer = "")
    (hst : exam.status = ExamStatus.in_progress)
    (hq : exam.questions.any (fun q => q.id == questionId) = true)
    (hfound : answers.find? (fun a => a.question_id == questionId) = some ex) :
    (submitAnswer true true exam answers questionId answer).1 =
      SubmitOutcome.ok { ex with user_answer := jsTrim answer } ∧
    (submitAnswer true true exam answers questionId answer).2.countP
        (fun a => a.question_id == questionId) =
      answers.countP (fun a => a.question_id == questionId) ∧
    (submitAnswer true true exam answers questionId answer).2.find?
        (fun a => a.question_id == questionId) =
      some { ex with user_answer := jsTrim answer } ∧
    ({ ex with user_answer := jsTrim answer } : ExamAnswer).score = ex.score ∧
    ({ ex with user_answer := jsTrim answer } : ExamAnswer).feedback =
      ex.feedback := by
  have hrun : submitAnswer true true exam answers questionId answer =
      (SubmitOutcome.ok { ex with user_answer := jsTrim answer },
        answers.map (fun a =>
          if a.question_id == questionId then
            { a with user_answer := jsTrim answer }
          else a)) := by
    unfold submitAnswer
    rw [if_neg (by simp), if_neg hblank, if_neg (by simp),
      if_neg (by simp [hst]), if_neg (by simp [hq]), hfound]
  rw [hrun]
  have hpf : ∀ a : ExamAnswer,
      ((if a.question_id == questionId then
          ({ a with user_answer := jsTrim answer } : ExamAnswer)
        else a).question_id == questionId) = (a.question_id == questionId) := by
    intro a
    by_cases h : a.question_id == questionId
    · simp [h]
    · simp [h]
  refine ⟨rfl, ?_, ?_, rfl, rfl⟩
  · rw [List.countP_map]
    refine List.countP_congr (fun a _ => ?_)
    simp only [Function.comp_apply]
    rw [hpf a]
  · rw [List.find?_map]
    have hcomp : ((fun a : ExamAnswer => a.question_id == questionId) ∘
        (fun a : ExamAnswer =>
          if a.question_id == questionId then
            { a with user_answer := jsTrim answer }
          else a)) = (fun a : ExamAnswer => a.question_id == questionId) := by
      funext a
      simp only [Function.comp_apply]
      exact hpf a
    rw [hcomp, hfound]
    have hp : (ex.question_id == questionId) = true := by
      have := List.find?_some hfound
      simpa using this
    simp only [Option.map_some']
    rw [if_pos hp]

/-- C10 — witness for the amended theorem on a concrete resubmission. -/
theorem submitAnswer_overwrite_preserves_grade_witness :
    (submitAnswer true true
        { status := ExamStatus.in_progress, questions := sampleQuestions,
          overall_score := none, passed := none }
        [{ question_id := "22222222-2222-2222-8222-222222222222",
           user_answer := "old", score := some 50, feedback := some "good",
           graded_at := some 1 }]
        "22222222-2222-2222-8222-222222222222" " new ").2.find?
        (fun a => a.question_id == "22222222-2222-2222-8222-222222222222") =
      some { question_id := "22222222-2222-2222-8222-222222222222",
             user_answer := jsTrim " new ", score := some 50,
             feedback := some "good", graded_at := some 1 } :=
  (submitAnswer_overwrite_preserves_grade
      { status := ExamStatus.in_progress, questions := sampleQuestions,
        overall_score := none, passed := none }
      [{ question_id := "22222222-2222-2222-8222-222222222222",
         user_answer := "old", score := some 50, feedback := some "good",
         graded_at := some 1 }]
      "22222222-2222-2222-8222-222222222222" " new "
      { question_id := "22222222-2222-2222-8222-222222222222",
        user_answer := "old", score := some 50, feedback := some "good",
        graded_at := some 1 }
      (by decide) rfl (by decide) (by decide)).2.2.1

/-- C8 — confirmed.  The generation retry loop makes at most 3 attempts;
when the first two attempts fail and the third succeeds, the operation
succeeds after waiting 1000 ms then 2000 ms; when all three fail it
raises `MAX_RETRIES_EXCEEDED` carrying the last underlying cause's
message, and the `generateExam` action then creates no exam row; and
every failure cause is treated identically — two oracles failing at the
same attempt positions produce the same attempt count and the same
delays, whatever the error categories. -/
theorem generateExamWithRetry_spec (oracle oracle₂ : GenAttemptOracle)
    (e1 e2 e3 : ExamGenError) (qs : List ExamQuestion) :
    (generateExamWithRetry oracle).attemptsMade ≤ 3 ∧
    (oracle 1 = Except.error e1 → oracle 2 = Except.error e2 →
      oracle 3 = Except.ok qs →
      generateExamWithRetry oracle =
        { result := Except.ok qs, attemptsMade := 3,
          delays := [1000, 2000] }) ∧
    (oracle 1 = Except.error e1 → oracle 2 = Except.error e2 →
      oracle 3 = Except.error e3 →
      (generateExamWithRetry oracle =
        { result := Except.error
            { etype := ExamGenErrorType.MAX_RETRIES_EXCEEDED,
              message :=
                "Failed to generate exam after 3 attempts. Last error: " ++
                  e3.message },
          attemptsMade := 3, delays := [1000, 2000] } ∧
        ∀ (signedIn ownerOk : Bool) (c : Commitment) (exams : List ExamRow)
          (now : Int),
          (generateExamAction signedIn ownerOk c exams now oracle).2 =
            exams)) ∧
    ((∀ n, isOkE (oracle n) = isOkE (oracle₂ n)) →
      (generateExamWithRetry oracle).attemptsMade =
          (generateExamWithRetry oracle₂).attemptsMade ∧
        (generateExamWithRetry oracle).delays =
          (generateExamWithRetry oracle₂).delays) := by
  refine ⟨?_, ?_, ?_, ?_⟩
  · rcases h1 : oracle 1 with f1 | q1
    · rcases h2 : oracle 2 with f2 | q2
      · rcases h3 : oracle 3 with f3 | q3
        · simp [generateExamWithRetry, generateRetryGo, h1, h2, h3,
            RETRY_CONFIG_maxRetries, RETRY_CONFIG_backoffMs]
        · simp [generateExamWithRetry, generateRetryGo, h1, h2, h3,
            RETRY_CONFIG_maxRetries, RETRY_CONFIG_backoffMs]
      · simp [generateExamWithRetry, generateRetryGo, h1, h2,
          RETRY_CONFIG_maxRetries, RETRY_CONFIG_backoffMs]
    · simp [generateExamWithRetry, generateRetryGo, h1,
        RETRY_CONFIG_maxRetries, RETRY_CONFIG_backoffMs]
  · intro h1 h2 h3
    simp [generateExamWithRetry, generateRetryGo, h1, h2, h3,
      RETRY_CONFIG_maxRetries, RETRY_CONFIG_backoffMs]
  · intro h1 h2 h3
    have hrun : generateExamWithRetry oracle =
        { result := Except.error
            { etype := ExamGenErrorType.MAX_RETRIES_EXCEEDED,
              message :=
                "Failed to generate exam after 3 attempts. Last error: " ++
                  e3.message },
          attemptsMade := 3, delays := [1000, 2000] } := by
      simp [generateExamWithRetry, generateRetryGo, h1, h2, h3,
        RETRY_CONFIG_maxRetries, RETRY_CONFIG_backoffMs]
    refine ⟨hrun, ?_⟩
    intro signedIn ownerOk c exams now
    unfold generateExamAction
    rw [hrun]
    split_ifs <;> rfl
  · intro hiso
    rcases h1 : oracle 1 with f1 | q1 <;> rcases h1' : oracle₂ 1 with f1' | q1'
    · rcases h2 : oracle 2 with f2 | q2 <;> rcases h2' : oracle₂ 2 with f2' | q2'
      · rcases h3 : oracle 3 with f3 | q3 <;>
          rcases h3' : oracle₂ 3 with f3' | q3'
        · simp [generateExamWithRetry, generateRetryGo, h1, h2, h3, h1', h2',
            h3', RETRY_CONFIG_maxRetries, RETRY_CONFIG_backoffMs]
        · have := hiso 3
          rw [h3, h3'] at this
          simp [isOkE] at this
        · have := hiso 3
          rw [h3, h3'] at this
          simp [isOkE] at this
        · simp [generateExamWithRetry, generateRetryGo, h1, h2, h3, h1', h2',
            h3', RETRY_CONFIG_maxRetries, RETRY_CONFIG_backoffMs]
      · have := hiso 2
        rw [h2, h2'] at this
        simp [isOkE] at this
      · have := hiso 2
        rw [h2, h2'] at this
        simp [isOkE] at this
      · simp [generateExamWithRetry, generateRetryGo, h1, h2, h1', h2',
          RETRY_CONFIG_maxRetries, RETRY_CONFIG_backoffMs]
    · have := hiso 1
      rw [h1, h1'] at this
      simp [isOkE] at this
    · have := hiso 1
      rw [h1, h1'] at this
      simp [isOkE] at this
    · simp [generateExamWithRetry, generateRetryGo, h1, h1',
        RETRY_CONFIG_maxRetries, RETRY_CONFIG_backoffMs]

/-- C8 — witness: a concrete oracle whose first two attempts return
malformed JSON and whose third returns a valid question set succeeds on
the third attempt after waiting 1 s then 2 s. -/
theorem generateExamWithRetry_spec_witness :
    generateExamWithRetry
        (fun n =>
          if n = 3 then Except.ok sampleQuestions
          else Except.error
            { etype := ExamGenErrorType.INVALID_RESPONSE,
              message := "Failed to parse LLM response as JSON" }) =
      { result := Except.ok sampleQuestions, attemptsMade := 3,
        delays := [1000, 2000] } :=
  (generateExamWithRetry_spec
      (fun n =>
        if n = 3 then Except.ok sampleQuestions
        else Except.error
          { etype := ExamGenErrorType.INVALID_RESPONSE,
            message := "Failed to parse LLM response as JSON" })
      (fun n =>
        if n = 3 then Except.ok sampleQuestions
        else Except.error
          { etype := ExamGenErrorType.INVALID_RESPONSE,
            message := "Failed to parse LLM response as JSON" })
      { etype := ExamGenErrorType.INVALID_RESPONSE,
        message := "Failed to parse LLM response as JSON" }
      { etype := ExamGenErrorType.INVALID_RESPONSE,
        message := "Failed to parse LLM response as JSON" }
      { etype := ExamGenErrorType.INVALID_RESPONSE,
        message := "Failed to parse LLM response as JSON" }
      sampleQuestions).2.1 (by decide) (by decide) (by decide)

/-- The transformation returns one question per input question. -/
theorem transformQuestions_length (fresh : Nat → String) (i : Nat)
    (l : List LLMQuestion) :
    (transformQuestions fresh i l).length = l.length := by
  induction l generalizing i with
  | nil => rfl
  | cons q qs ih => simp [transformQuestions, ih]

/-- Every transformed question is the transform of some input question. -/
theorem mem_transformQuestions (fresh : Nat → String) (i : Nat)
    (l : List LLMQuestion) (q' : ExamQuestion)
    (h : q' ∈ transformQuestions fresh i l) :
    ∃ j q, q ∈ l ∧ q' = transformQuestion fresh j q := by
  induction l generalizing i with
  | nil => simp [transformQuestions] at h
  | cons q qs ih =>
    simp only [transformQuestions, List.mem_cons] at h
    rcases h with h | h
    · exact ⟨i, q, List.mem_cons_self q qs, h⟩
    · obtain ⟨j, p, hp, he⟩ := ih (i + 1) h
      exact ⟨j, p, List.mem_cons_of_mem q hp, he⟩

/-- The transformation preserves the presence of each question type. -/
theorem exists_transformQuestions (fresh : Nat → String) (i : Nat)
    (l : List LLMQuestion) (t : QuestionType)
    (h : ∃ q ∈ l, q.qtype = t) :
    ∃ q' ∈ transformQuestions fresh i l, q'.qtype = t := by
  induction l generalizing i with
  | nil => simp at h
  | cons q qs ih =>
    rcases h with ⟨p, hp, ht⟩
    rcases List.mem_cons.mp hp with rfl | hmem
    · exact ⟨transformQuestion fresh i p, List.mem_cons_self _ _, ht⟩
    · obtain ⟨q', hq', ht'⟩ := ih (i + 1) ⟨p, hmem, ht⟩
      exact ⟨q', List.mem_cons_of_mem _ hq', ht'⟩

/-- C4 — amended.  Every successfully validated generation response has
5–10 questions, contains at least one question of each of the three
types, and every multiple-choice question carries exactly 4 options and a
non-empty `correct_answer` — the code does not check that the
`correct_answer` is drawn from the options. -/
theorem validateAndTransform_structure (fresh : Nat → String)
    (questions : List LLMQuestion) (out : List ExamQuestion)
    (h : validateAndTransformResponse fresh questions = Except.ok out) :
    (5 ≤ out.length ∧ out.length ≤ 10) ∧
    (∃ q ∈ out, q.qtype = QuestionType.multiple_choice) ∧
    (∃ q ∈ out, q.qtype = QuestionType.short_answer) ∧
    (∃ q ∈ out, q.qtype = QuestionType.application) ∧
    (∀ q ∈ out, q.qtype = QuestionType.multiple_choice →
      (∃ opts, q.options = some opts ∧ opts.length = 4) ∧
      (∃ s, q.correct_answer = some s ∧ ¬ s = "")) := by
  unfold validateAndTransformResponse at h
  split_ifs at h with hg1 hg2 hg3 hg4 hg5
  simp only [Except.ok.injEq] at h
  subst h
  have hs := hg1
  simp only [llmResponseSchemaCheck, Bool.and_eq_true, List.all_eq_true,
    decide_eq_true_eq] at hs
  obtain ⟨⟨hlo, hhi⟩, -⟩ := hs
  have habc := hg3
  simp only [Bool.and_eq_true, List.any_eq_true, decide_eq_true_eq] at habc
  obtain ⟨⟨hmc, hsa⟩, hap⟩ := habc
  have hall4 := hg4
  simp only [List.all_eq_true] at hall4
  have hall5 := hg5
  simp only [List.all_eq_true] at hall5
  refine ⟨?_, ?_, ?_, ?_, ?_⟩
  · rw [transformQuestions_length]
    exact ⟨hlo, hhi⟩
  · exact exists_transformQuestions fresh 0 questions _ hmc
  · exact exists_transformQuestions fresh 0 questions _ hsa
  · exact exists_transformQuestions fresh 0 questions _ hap
  · intro q' hq' hmcq
    obtain ⟨j, q, hqmem, rfl⟩ :=
      mem_transformQuestions fresh 0 questions q' hq'
    have hqt : q.qtype = QuestionType.multiple_choice := hmcq
    have h4 := hall4 q hqmem
    have h5 := hall5 q hqmem
    rw [hqt] at h4 h5
    constructor
    · rcases hopt : q.options with _ | opts
      · rw [hopt] at h4
        simp at h4
      · rw [hopt] at h4
        simp at h4
        refine ⟨opts, ?_, h4⟩
        show (if q.qtype = QuestionType.multiple_choice then q.options
          else none) = some opts
        rw [if_pos hqt, hopt]
    · rcases hca : q.correct_answer with _ | s
      · rw [hca] at h5
        simp at h5
      · rw [hca] at h5
        simp at h5
        refine ⟨s, ?_, h5⟩
        show (if q.qtype = QuestionType.multiple_choice then q.correct_answer
          else none) = some s
        rw [if_pos hqt, hca]

/-- C4 — witness: a concrete valid response passes validation; the 5–10
length bound at the concrete output. -/
theorem validateAndTransform_structure_witness :
    5 ≤ (transformQuestions (fun _ => "f") 0
        [{ id := "q1", qtype := QuestionType.multiple_choice,
           question := "Q1",
           options := some ["A) a", "B) b", "C) c", "D) d"],
           correct_answer := some "A",
           difficulty := QuestionDifficulty.intermediate },
         { id := "q2", qtype := QuestionType.short_answer, question := "Q2",
           options := none, correct_answer := none,
           difficulty := QuestionDifficulty.intermediate },
         { id := "q3", qtype := QuestionType.application, question := "Q3",
           options := none, correct_answer := none,
           difficulty := QuestionDifficulty.advanced },
         { id := "q4", qtype := QuestionType.short_answer, question := "Q4",
           options := none, correct_answer := none,
           difficulty := QuestionDifficulty.intermediate },
         { id := "q5", qtype := QuestionType.application, question := "Q5",
           options := none, correct_answer := none,
           difficulty := QuestionDifficulty.advanced }]).length ∧
    (transformQuestions (fun _ => "f") 0
        [{ id := "q1", qtype := QuestionType.multiple_choice,
           question := "Q1",
           options := some ["A) a", "B) b", "C) c", "D) d"],
           correct_answer := some "A",
           difficulty := QuestionDifficulty.intermediate },
         { id := "q2", qtype := QuestionType.short_answer, question := "Q2",
           options := none, correct_answer := none,
           difficulty := QuestionDifficulty.intermediate },
         { id := "q3", qtype := QuestionType.application, question := "Q3",
           options := none, correct_answer := none,
           difficulty := QuestionDifficulty.advanced },
         { id := "q4", qtype := QuestionType.short_answer, question := "Q4",
           options := none, correct_answer := none,
           difficulty := QuestionDifficulty.intermediate },
         { id := "q5", qtype := QuestionType.application, question := "Q5",
           options := none, correct_answer := none,
           difficulty := QuestionDifficulty.advanced }]).length ≤ 10 :=
  (validateAndTransform_structure (fun _ => "f")
      [{ id := "q1", qtype := QuestionType.multiple_choice, question := "Q1",
         options := some ["A) a", "B) b", "C) c", "D) d"],
         correct_answer := some "A",
         difficulty := QuestionDifficulty.intermediate },
       { id := "q2", qtype := QuestionType.short_answer, question := "Q2",
         options := none, correct_answer := none,
         difficulty := QuestionDifficulty.intermediate },
       { id := "q3", qtype := QuestionType.application, question := "Q3",
         options := none, correct_answer := none,
         difficulty := QuestionDifficulty.advanced },
       { id := "q4", qtype := QuestionType.short_answer, question := "Q4",
         options := none, correct_answer := none,
         difficulty := QuestionDifficulty.intermediate },
       { id := "q5", qtype := QuestionType.application, question := "Q5",
         options := none, correct_answer := none,
         difficulty := QuestionDifficulty.advanced }]
      _ (by decide)).1

/-- C4 — counterexample.  Validation accepts a response whose
multiple-choice `correct_answer` is not drawn from its options: the check
only requires `correct_answer` to be truthy. -/
theorem validateAndTransform_membership_cex :
    (validateAndTransformResponse (fun _ => "f")
        [{ id := "q1", qtype := QuestionType.multiple_choice,
           question := "Q1",
           options := some ["A) a", "B) b", "C) c", "D) d"],
           correct_answer := some "E",
           difficulty := QuestionDifficulty.intermediate },
         { id := "q2", qtype := QuestionType.short_answer, question := "Q2",
           options := none, correct_answer := none,
           difficulty := QuestionDifficulty.intermediate },
         { id := "q3", qtype := QuestionType.application, question := "Q3",
           options := none, correct_answer := none,
           difficulty := QuestionDifficulty.advanced },
         { id := "q4", qtype := QuestionType.short_answer, question := "Q4",
           options := none, correct_answer := none,
           difficulty := QuestionDifficulty.intermediate },
         { id := "q5", qtype := QuestionType.application, question := "Q5",
           options := none, correct_answer := none,
           difficulty := QuestionDifficulty.advanced }]).toOption.bind
        (fun l => l.head?) =
      some { id := "f", qtype := QuestionType.multiple_choice,
             question := "Q1",
             options := some ["A) a", "B) b", "C) c", "D) d"],
             correct_answer := some "E",
             difficulty := QuestionDifficulty.intermediate } ∧
    ¬ ("E" ∈ ["A) a", "B) b", "C) c", "D) d"]) := by
  refine ⟨by decide, by decide⟩

end Burner
